import Mathlib

/-!
# Verification of the user-management service (flat layout: `api.py`,
`security.py`, `config.py`, `models.py`, `schemas.py`)

Shallow embedding of the service's credential engine, data model and
request handlers, with theorems checking the natural-language
specification against them.

Modelling conventions:
* Python strings appearing as *passwords* are modelled as lists of
  Unicode code points (`List Nat`), because the code inspects their
  UTF-8 byte encoding; all other strings stay `String`.
* `HTTPException(code, detail)` becomes the `HTTPError` structure; a
  handler returns `Except HTTPError α` (plus the resulting database
  state for mutating handlers, which the Python session makes implicit).
* bcrypt (reached through passlib) is idealised as a collision-free
  one-way function that commits to the first 72 bytes of its key and to
  a salt; this keeps exactly the property the source relies on (a hash
  verifies iff the first 72 key bytes match) without modelling the
  Blowfish core.
* The HMAC signature of a JWT is idealised as unforgeable: a signed
  token carries the secret it was signed with, and verification
  compares it with the expected secret.
-/

namespace UserMgmt

/-! ## config.py -/

/-- `config.py`: `JWT_SECRET = os.getenv("JWT_SECRET", "DEV_SECRET")`
(default value; the environment override is deployment configuration). -/
def JWT_SECRET : String := "DEV_SECRET"

/-- `config.py`: `ALGORITHM = "HS256"`. -/
def ALGORITHM : String := "HS256"

/-- `config.py`: `ACCESS_TOKEN_EXPIRE_MINUTES = 60`. -/
def ACCESS_TOKEN_EXPIRE_MINUTES : Nat := 60

/-! ## UTF-8 encoding and decoding

`security.py` calls `password.encode("utf-8")` and
`pwd_bytes.decode("utf-8", errors="ignore")`.  These are CPython
primitives; they are embedded here directly.  A Python `str` is a
sequence of code points, modelled as `List Nat`. -/

/-- UTF-8 encoding of one code point (CPython `str.encode("utf-8")`,
per code point). -/
def utf8EncodeChar (c : Nat) : List Nat :=
  if c < 0x80 then [c]
  else if c < 0x800 then
    [0xC0 ||| (c >>> 6), 0x80 ||| (c &&& 0x3F)]
  else if c < 0x10000 then
    [0xE0 ||| (c >>> 12), 0x80 ||| ((c >>> 6) &&& 0x3F), 0x80 ||| (c &&& 0x3F)]
  else
    [0xF0 ||| (c >>> 18), 0x80 ||| ((c >>> 12) &&& 0x3F),
     0x80 ||| ((c >>> 6) &&& 0x3F), 0x80 ||| (c &&& 0x3F)]

/-- `password.encode("utf-8")`: UTF-8 bytes of a code-point sequence. -/
def utf8Encode (cs : List Nat) : List Nat :=
  cs.flatMap utf8EncodeChar

/-- Is `b` a UTF-8 continuation byte (`0x80 ≤ b < 0xC0`)? -/
def isCont (b : Nat) : Bool :=
  0x80 ≤ b && b < 0xC0

/-- Valid second byte of a three-byte sequence led by `b`
(excludes overlong `E0 80..9F` and surrogate `ED A0..BF` forms,
which CPython's strict decoder rejects). -/
def cont3Ok (b c1 : Nat) : Bool :=
  isCont c1 && (b != 0xE0 || 0xA0 ≤ c1) && (b != 0xED || c1 < 0xA0)

/-- Valid second byte of a four-byte sequence led by `b`
(excludes overlong `F0 80..8F` and out-of-range `F4 90..BF` forms). -/
def cont4Ok (b c1 : Nat) : Bool :=
  isCont c1 && (b != 0xF0 || 0x90 ≤ c1) && (b != 0xF4 || c1 < 0x90)

/-- `bytes.decode("utf-8", errors="ignore")`: decode UTF-8, dropping
bytes that do not form a valid sequence.  On an invalid or truncated
sequence the decoder drops the offending bytes and resynchronises at
the next byte that could start or continue nothing, matching CPython's
`ignore` error handler on the inputs considered here; no theorem below
depends on the resynchronisation granularity, only on determinism. -/
def utf8DecodeIgnore : List Nat → List Nat
  | [] => []
  | b :: rest =>
    if b < 0x80 then b :: utf8DecodeIgnore rest
    else if b < 0xC2 then
      -- stray continuation byte, or overlong lead C0/C1: dropped
      utf8DecodeIgnore rest
    else if b < 0xE0 then
      match rest with
      | [] => []
      | c1 :: r1 =>
        if isCont c1 then
          (((b - 0xC0) <<< 6) ||| (c1 - 0x80)) :: utf8DecodeIgnore r1
        else utf8DecodeIgnore (c1 :: r1)
    else if b < 0xF0 then
      match rest with
      | [] => []
      | [c1] => if cont3Ok b c1 then [] else utf8DecodeIgnore [c1]
      | c1 :: c2 :: r2 =>
        if cont3Ok b c1 then
          if isCont c2 then
            (((b - 0xE0) <<< 12) ||| ((c1 - 0x80) <<< 6) ||| (c2 - 0x80))
              :: utf8DecodeIgnore r2
          else utf8DecodeIgnore (c2 :: r2)
        else utf8DecodeIgnore (c1 :: c2 :: r2)
    else if b < 0xF5 then
      match rest with
      | [] => []
      | [c1] => if cont4Ok b c1 then [] else utf8DecodeIgnore [c1]
      | [c1, c2] =>
        if cont4Ok b c1 then
          if isCont c2 then [] else utf8DecodeIgnore [c2]
        else utf8DecodeIgnore [c1, c2]
      | c1 :: c2 :: c3 :: r3 =>
        if cont4Ok b c1 then
          if isCont c2 then
            if isCont c3 then
              (((b - 0xF0) <<< 18) ||| ((c1 - 0x80) <<< 12) |||
               ((c2 - 0x80) <<< 6) ||| (c3 - 0x80)) :: utf8DecodeIgnore r3
            else utf8DecodeIgnore (c3 :: r3)
          else utf8DecodeIgnore (c2 :: c3 :: r3)
        else utf8DecodeIgnore (c1 :: c2 :: c3 :: r3)
    else
      -- invalid lead byte F5..FF: dropped
      utf8DecodeIgnore rest

/-! ## passlib / bcrypt

`security.py` builds `pwd_context = CryptContext(schemes=["bcrypt"])`
and calls `pwd_context.hash` / `pwd_context.verify`.  passlib and the
bcrypt primitive are external libraries; they are embedded from their
documented behaviour:

* bcrypt derives its digest from the salt and from at most the first
  72 bytes of the UTF-8 encoded secret, and embeds the salt in the
  produced hash string.  The digest is idealised as the committed key
  bytes themselves (collision-freeness of bcrypt), so that a
  verification succeeds exactly when the first 72 key bytes match.
* `CryptContext.verify(secret, hash)` raises
  `passlib.exc.UnknownHashError` (a `ValueError`) when the hash string
  cannot be identified as one of the configured schemes — it does not
  return `False` for malformed hashes (passlib documentation:
  "raises ValueError: if the hash could not be identified").
-/

/-- A well-formed bcrypt hash string: the embedded salt together with
the key material the digest commits to (first 72 bytes of the UTF-8
encoded secret). -/
structure BcryptHash where
  salt : Nat
  key : List Nat
  deriving Repr, DecidableEq

/-- A stored hash string is either a parseable bcrypt hash or some
other string that passlib cannot identify. -/
inductive StoredHash where
  | bcrypt (h : BcryptHash)
  | malformed (s : String)
  deriving Repr, DecidableEq

/-- Errors passlib raises out of `CryptContext.verify` /
`CryptContext.hash` instead of returning a value. -/
inductive PasslibError where
  | unknownHash
  deriving Repr, DecidableEq

/-- The bcrypt primitive: commits to the salt and to the first 72 bytes
of the key. -/
def bcryptHash (keyBytes : List Nat) (salt : Nat) : BcryptHash :=
  ⟨salt, keyBytes.take 72⟩

/-- `CryptContext.hash(secret)`: UTF-8 encodes the secret (a Python
`str` of code points) and hashes it under a fresh salt, passed here
explicitly since the model is pure. -/
def cryptContextHash (secret : List Nat) (salt : Nat) : StoredHash :=
  .bcrypt (bcryptHash (utf8Encode secret) salt)

/-- `CryptContext.verify(secret, hash)`: re-derives the digest with the
embedded salt and compares; raises `UnknownHashError` on a hash string
that does not parse as bcrypt. -/
def cryptContextVerify (secret : List Nat) (hashed : StoredHash) :
    Except PasslibError Bool :=
  match hashed with
  | .bcrypt h => .ok (decide ((utf8Encode secret).take 72 = h.key))
  | .malformed _ => .error .unknownHash

/-! ## security.py -/

/-- `security.py` `_normalize_password`: encode to UTF-8, truncate to
72 bytes, decode back ignoring errors. -/
def _normalize_password (password : List Nat) : List Nat :=
  let pwd_bytes := utf8Encode password
  let pwd_bytes := if pwd_bytes.length > 72 then pwd_bytes.take 72 else pwd_bytes
  utf8DecodeIgnore pwd_bytes

/-- `security.py` `hash_password`: `pwd_context.hash(_normalize_password(password))`. -/
def hash_password (password : List Nat) (salt : Nat) : StoredHash :=
  cryptContextHash (_normalize_password password) salt

/-- `security.py` `verify_password`: `pwd_context.verify(_normalize_password(plain), hashed)`. -/
def verify_password (plain : List Nat) (hashed : StoredHash) :
    Except PasslibError Bool :=
  cryptContextVerify (_normalize_password plain) hashed

/-! ## JWT (python-jose) and token helpers of security.py

`jwt.encode(payload, JWT_SECRET, algorithm=ALGORITHM)` and
`jwt.decode(token, JWT_SECRET, algorithms=[ALGORITHM])` are embedded
with the HMAC signature idealised as unforgeable: a structurally sound
token records the payload, the secret its signature was computed with
and the algorithm; `jwt.decode` succeeds iff the signature checks out
under the expected secret, the algorithm is allowed, and the `exp`
claim (if present) has not passed.  `jose.JWTError` covers every
failure; `decode_token` catches it and returns `None`. -/

/-- A JWT payload: the caller-supplied claims (string-valued, as used
by this service) plus the `exp` registered claim in Unix seconds. -/
structure JWTPayload where
  claims : List (String × String)
  exp : Option Int
  deriving Repr, DecidableEq

/-- A token string: either structurally a JWT (payload, signing secret,
algorithm) or not parseable as one. -/
inductive Token where
  | signed (payload : JWTPayload) (secret : String) (alg : String)
  | malformed (s : String)
  deriving Repr, DecidableEq

/-- `jose.jwt.encode`. -/
def jwtEncode (payload : JWTPayload) (secret : String) (alg : String) : Token :=
  .signed payload secret alg

/-- `jose.jwt.decode` at time `now` (Unix seconds): `none` models a
raised `JWTError` (bad signature, disallowed algorithm, malformed
token, or expired `exp`; python-jose treats `exp < now` as expired). -/
def jwtDecode (token : Token) (secret : String) (algs : List String)
    (now : Int) : Option JWTPayload :=
  match token with
  | .signed payload sigSecret alg =>
    if sigSecret = secret ∧ alg ∈ algs ∧
        payload.exp.all (fun e => now ≤ e) then
      some payload
    else none
  | .malformed _ => none

/-- `security.py` `create_access_token`: copies the claims, sets
`exp = now + ACCESS_TOKEN_EXPIRE_MINUTES` (as a timedelta in seconds),
and signs with `JWT_SECRET` using `ALGORITHM`. -/
def create_access_token (data : List (String × String)) (now : Int) : Token :=
  jwtEncode ⟨data, some (now + ACCESS_TOKEN_EXPIRE_MINUTES * 60)⟩ JWT_SECRET ALGORITHM

/-- `security.py` `decode_token`: `jwt.decode` under `JWT_SECRET` with
`algorithms=[ALGORITHM]`, returning `None` on any `JWTError`. -/
def decode_token (token : Token) (now : Int) : Option JWTPayload :=
  jwtDecode token JWT_SECRET [ALGORITHM] now

/-! ## models.py — the two tables

`User` and `Friends` rows; the database state is the ordered contents
of the two tables (SQLite returns unordered queries in rowid =
insertion order, which the list order models).  Python `int` is `Int`.
-/

/-- `models.py` `User` row. -/
structure User where
  id : Int
  email : String
  hashed_password : StoredHash
  is_active : Bool
  deriving Repr, DecidableEq

/-- `models.py` `Friends` row: composite primary key
(`user_id`, `friend_id`) plus the display `name`. -/
structure Friends where
  user_id : Int
  friend_id : Int
  name : String
  deriving Repr, DecidableEq

/-- The relational store: both tables in insertion order. -/
structure DB where
  users : List User
  friends : List Friends
  deriving Repr, DecidableEq

/-! ## schemas.py — request bodies -/

/-- `schemas.py` `UserCreate`: `userId: int`, `email: EmailStr`,
`password: str` (the password is the code-point sequence). -/
structure UserCreate where
  userId : Int
  email : String
  password : List Nat
  deriving Repr, DecidableEq

/-- `schemas.py` `FriendReq`: `friend_id: int`, `name: str` — note no
length constraint on `name`. -/
structure FriendReq where
  friend_id : Int
  name : String
  deriving Repr, DecidableEq

/-! ## api.py — request handlers

Each handler returns `Except HTTPError α`; mutating handlers also
return the resulting database state (unchanged on every error path,
since the code raises before `db.add`/`db.commit`). -/

/-- `fastapi.HTTPException(status_code, detail)`. -/
structure HTTPError where
  code : Nat
  detail : String
  deriving Repr, DecidableEq

/-- `db.query(User).filter(User.email == e).first()`. -/
def findUserByEmail (db : DB) (email : String) : Option User :=
  db.users.find? (fun u => u.email == email)

/-- `db.query(User).filter(User.id == i).first()`. -/
def findUserById (db : DB) (i : Int) : Option User :=
  db.users.find? (fun u => u.id == i)

/-- `db.query(Friends).filter(Friends.user_id == a, Friends.friend_id == b).first()`. -/
def findFriendship (db : DB) (a b : Int) : Option Friends :=
  db.friends.find? (fun f => f.user_id == a && f.friend_id == b)

/-- `api.py` `create_user` (`POST /users`): email-uniqueness check,
then id-uniqueness check, then insert and return `{id, email}`.  The
bcrypt salt drawn inside `hash_password` is passed explicitly. -/
def create_user (db : DB) (user : UserCreate) (salt : Nat) :
    DB × Except HTTPError (Int × String) :=
  if (findUserByEmail db user.email).isSome then
    (db, .error ⟨400, "User already exists"⟩)
  else if (findUserById db user.userId).isSome then
    (db, .error ⟨400, "User ID already exists"⟩)
  else
    let new_user : User :=
      ⟨user.userId, user.email, hash_password user.password salt, true⟩
    ({ db with users := db.users ++ [new_user] },
     .ok (new_user.id, new_user.email))

/-- A successful login response:
`{"access_token": token, "token_type": "bearer"}`. -/
structure LoginResp where
  access_token : Token
  token_type : String
  deriving Repr, DecidableEq

/-- How `api.py` `login` can fail: an `HTTPException` it raises itself,
or an exception escaping `verify_password` (passlib), which FastAPI
surfaces as a generic server error. -/
inductive LoginFailure where
  | http (e : HTTPError)
  | uncaught (e : PasslibError)
  deriving Repr, DecidableEq

/-- `api.py` `login` (`POST /login`) at time `now`: look up the user by
email (the form's `username`), verify the password, and return a signed
bearer token with claim `sub = str(user.id)`. -/
def login (db : DB) (username : String) (password : List Nat) (now : Int) :
    Except LoginFailure LoginResp :=
  match findUserByEmail db username with
  | none => .error (.http ⟨401, "Invalid credentials"⟩)
  | some user =>
    match verify_password password user.hashed_password with
    | .error e => .error (.uncaught e)
    | .ok false => .error (.http ⟨401, "Invalid credentials"⟩)
    | .ok true =>
      .ok ⟨create_access_token [("sub", toString user.id)] now, "bearer"⟩

/-- `api.py` `add_friend` (`POST /users/{user_id}/friends`): both users
must exist (404 otherwise), the ordered pair must be new (400
otherwise), then the row is inserted and the triple echoed. -/
def add_friend (db : DB) (user_id : Int) (rq : FriendReq) :
    DB × Except HTTPError (Int × Int × String) :=
  let friend_id := rq.friend_id
  let name := rq.name
  let user := findUserById db user_id
  let friend := findUserById db friend_id
  if user.isNone || friend.isNone then
    (db, .error ⟨404, "User not found"⟩)
  else if (findFriendship db user_id friend_id).isSome then
    (db, .error ⟨400, "Friendship already exists"⟩)
  else
    ({ db with friends := db.friends ++ [⟨user_id, friend_id, name⟩] },
     .ok (user_id, friend_id, name))

/-- One row of the list-friends page: `{"friend_id": ..., "name": ...}`. -/
structure FriendOut where
  friend_id : Int
  name : String
  deriving Repr, DecidableEq

/-- The list-friends response `{items, total, skip, limit}`. -/
structure ListFriendsResp where
  items : List FriendOut
  total : Nat
  skip : Int
  limit : Int
  deriving Repr, DecidableEq

/-- `api.py` `list_friends` (`GET /users/{user_id}/friends`): pagination
bounds are validated first (`skip ≥ 0`, `1 ≤ limit ≤ 100`), then the
user must exist, then the page
`filter(user_id).offset(skip).limit(limit)` and the total count are
returned. -/
def list_friends (db : DB) (user_id : Int) (skip : Int) (limit : Int) :
    Except HTTPError ListFriendsResp :=
  if skip < 0 then .error ⟨400, "skip must be non-negative"⟩
  else if limit < 1 then .error ⟨400, "limit must be at least 1"⟩
  else if limit > 100 then .error ⟨400, "limit cannot exceed 100"⟩
  else if (findUserById db user_id).isNone then
    .error ⟨404, "User not found"⟩
  else
    let rows := db.friends.filter (fun f => f.user_id == user_id)
    let total := rows.length
    let page := (rows.drop skip.toNat).take limit.toNat
    .ok ⟨page.map (fun f => ⟨f.friend_id, f.name⟩), total, skip, limit⟩

/-- `api.py` `me` (`GET /users/me`): decode the bearer token, 401 when
it does not decode. -/
def me (token : Token) (now : Int) : Except HTTPError JWTPayload :=
  match decode_token token now with
  | none => .error ⟨401, "Invalid token"⟩
  | some payload => .ok payload

/-- `api.py` `get_user` (`GET /users/{user_id}`): `db.query(User).get`,
404 when absent; the `UserOut` response model adds the derived
`friends` id list (the `User.friends` property). -/
def get_user (db : DB) (user_id : Int) :
    Except HTTPError (Int × String × Bool × List Int) :=
  match findUserById db user_id with
  | none => .error ⟨404, "User not found"⟩
  | some u =>
    .ok (u.id, u.email, u.is_active,
      (db.friends.filter (fun f => f.user_id == u.id)).map (·.friend_id))

/-! ## Helper lemmas -/

/-- `_normalize_password` always takes the first 72 bytes: the
conditional truncation is equivalent to an unconditional `take 72`. -/
theorem _normalize_password_eq (p : List Nat) :
    _normalize_password p = utf8DecodeIgnore ((utf8Encode p).take 72) := by
  unfold _normalize_password
  by_cases h : (utf8Encode p).length > 72
  · simp [h]
  · simp only [h, if_false]
    rw [List.take_of_length_le (Nat.le_of_not_lt h)]

/-- `hash_password` depends only on the first 72 UTF-8 bytes of the
password. -/
theorem hash_password_congr (p q : List Nat) (salt : Nat)
    (h : (utf8Encode p).take 72 = (utf8Encode q).take 72) :
    hash_password p salt = hash_password q salt := by
  unfold hash_password cryptContextHash
  rw [_normalize_password_eq, _normalize_password_eq, h]

/-- A password always verifies against its own hash. -/
theorem verify_password_hash_self (p : List Nat) (salt : Nat) :
    verify_password p (hash_password p salt) = .ok true := by
  unfold verify_password hash_password cryptContextVerify cryptContextHash bcryptHash
  simp

/-! ## Claims -/

/-- **C2.** `hash` truncates the password's byte representation to at
most 72 bytes before hashing and `verify` applies the same truncation
rule: both depend only on the first 72 UTF-8 bytes of the password, so
every password verifies against its own hash, and two passwords whose
UTF-8 encodings agree on the first 72 bytes verify against each
other's hashes. -/
theorem password_truncation_spec :
    (∀ p salt, verify_password p (hash_password p salt) = .ok true) ∧
    (∀ p q salt, (utf8Encode p).take 72 = (utf8Encode q).take 72 →
      hash_password p salt = hash_password q salt ∧
      verify_password p (hash_password q salt) = .ok true) := by
  refine ⟨verify_password_hash_self, fun p q salt h => ?_⟩
  have hc := hash_password_congr p q salt h
  exact ⟨hc, by rw [← hc]; exact verify_password_hash_self p salt⟩

/-- Witness for C2 at concrete inputs: the password "a" (code point
97) against itself, and two passwords which are 80 copies of "a"
resp. 80 copies of "a" with a differing 73rd-onwards suffix, whose
encodings agree on the first 72 bytes. -/
theorem password_truncation_spec_witness :
    verify_password [97] (hash_password [97] 3) = .ok true ∧
    (hash_password (List.replicate 80 97) 3 =
        hash_password (List.replicate 72 97 ++ List.replicate 8 98) 3 ∧
      verify_password (List.replicate 80 97)
        (hash_password (List.replicate 72 97 ++ List.replicate 8 98) 3) = .ok true) :=
  ⟨password_truncation_spec.1 [97] 3,
   password_truncation_spec.2 (List.replicate 80 97)
     (List.replicate 72 97 ++ List.replicate 8 98) 3 (by decide)⟩

/-- **C3 (counterexample).** The claim "verify returns false on a
malformed stored hash and never raises" fails: on a stored hash string
that does not parse as bcrypt, passlib's `CryptContext.verify` raises
`UnknownHashError` rather than returning `False`, and `verify_password`
does not catch it.  Concretely, verifying the password "p" (code point
112) against the stored string `"not-a-bcrypt-hash"` propagates the
error and does not return false. -/
theorem verify_malformed_hash_raises_cex :
    verify_password [112] (.malformed "not-a-bcrypt-hash") = .error .unknownHash ∧
    verify_password [112] (.malformed "not-a-bcrypt-hash") ≠ .ok false := by
  exact ⟨rfl, by simp [verify_password, cryptContextVerify]⟩

/-- **C3 (amended).** For every password, `verify` on a well-formed
bcrypt hash returns a boolean (it never raises); on a malformed
(non-bcrypt) stored hash it raises `UnknownHashError`, which
propagates to the caller instead of a `false` return. -/
theorem verify_wellformed_total_malformed_raises :
    (∀ plain h, ∃ b, verify_password plain (.bcrypt h) = .ok b) ∧
    (∀ plain s, verify_password plain (.malformed s) = .error .unknownHash) :=
  ⟨fun plain h =>
    ⟨decide ((utf8Encode (_normalize_password plain)).take 72 = h.key), rfl⟩,
   fun _ _ => rfl⟩

/-- **C4.** `issue_token` embeds the given claims plus an expiration of
issue time + 60 minutes; a token issued by `login` and decoded
immediately yields claims containing the subject id and a future
expiration; and `decode_token` on a malformed, tampered (signature not
made with the server secret), or expired token returns the invalid
sentinel `none` rather than the claims — it never raises, being a
total function into `Option`. -/
theorem token_issue_decode_spec :
    (∀ data now, create_access_token data now =
      .signed ⟨data, some (now + 60 * 60)⟩ JWT_SECRET ALGORITHM) ∧
    (∀ db username password now r,
      login db username password now = .ok r →
      ∃ user, findUserByEmail db username = some user ∧
        decode_token r.access_token now =
          some ⟨[("sub", toString user.id)], some (now + 60 * 60)⟩ ∧
        now < now + 60 * 60) ∧
    (∀ s now, decode_token (.malformed s) now = none) ∧
    (∀ payload secret alg now, secret ≠ JWT_SECRET →
      decode_token (.signed payload secret alg) now = none) ∧
    (∀ payload alg now e, payload.exp = some e → e < now →
      decode_token (.signed payload JWT_SECRET alg) now = none) := by
  refine ⟨fun data now => rfl, ?_, fun s now => rfl, ?_, ?_⟩
  · intro db username password now r hok
    unfold login at hok
    cases hfind : findUserByEmail db username with
    | none => rw [hfind] at hok; exact absurd hok (by simp)
    | some user =>
      simp only [hfind] at hok
      refine ⟨user, rfl, ?_⟩
      cases hv : verify_password password user.hashed_password with
      | error e => simp only [hv] at hok; exact absurd hok (by simp)
      | ok b =>
        simp only [hv] at hok
        cases b with
        | false => simp at hok
        | true =>
          simp only [Except.ok.injEq] at hok
          subst hok
          constructor
          · simp [decode_token, jwtDecode, create_access_token, jwtEncode,
              ACCESS_TOKEN_EXPIRE_MINUTES]
          · omega
  · intro payload secret alg now hne
    simp [decode_token, jwtDecode, hne]
  · intro payload alg now e hexp hlt
    simp [decode_token, jwtDecode, hexp]
    intros
    omega

/-- Witness for C4: a concrete user, a successful login at time 1000,
and concrete malformed, tampered and expired tokens. -/
theorem token_issue_decode_spec_witness :
    create_access_token [("sub", "1")] 1000 =
      .signed ⟨[("sub", "1")], some (1000 + 60 * 60)⟩ JWT_SECRET ALGORITHM ∧
    (∃ user,
      findUserByEmail ⟨[⟨1, "a@x.com", hash_password [112] 0, true⟩], []⟩ "a@x.com" =
          some user ∧
      decode_token (LoginResp.access_token
          ⟨create_access_token [("sub", "1")] 1000, "bearer"⟩) 1000 =
        some ⟨[("sub", toString user.id)], some (1000 + 60 * 60)⟩ ∧
      (1000 : Int) < 1000 + 60 * 60) ∧
    decode_token (.malformed "garbage") 1000 = none ∧
    decode_token (.signed ⟨[("sub", "1")], some 5000⟩ "WRONG_SECRET" ALGORITHM) 1000 = none ∧
    decode_token (.signed ⟨[("sub", "1")], some 500⟩ JWT_SECRET ALGORITHM) 1000 = none := by
  refine ⟨token_issue_decode_spec.1 [("sub", "1")] 1000, ?_, ?_, ?_, ?_⟩
  · have h := token_issue_decode_spec.2.1
      ⟨[⟨1, "a@x.com", hash_password [112] 0, true⟩], []⟩ "a@x.com" [112] 1000
      ⟨create_access_token [("sub", "1")] 1000, "bearer"⟩
    apply h
    rfl
  · exact token_issue_decode_spec.2.2.1 "garbage" 1000
  · exact token_issue_decode_spec.2.2.2.1 ⟨[("sub", "1")], some 5000⟩
      "WRONG_SECRET" ALGORITHM 1000 (by decide)
  · exact token_issue_decode_spec.2.2.2.2 ⟨[("sub", "1")], some 500⟩
      ALGORITHM 1000 500 rfl (by decide)

/-- Well-formedness of a database state, maintained by the exposed
operations: stored emails are pairwise distinct (the `unique=True`
column constraint on `users.email`) and every stored password hash is
a well-formed bcrypt hash (registration only ever stores
`hash_password` outputs). -/
def WFdb (db : DB) : Prop :=
  (db.users.map (·.email)).Nodup ∧
  ∀ u ∈ db.users, ∃ h, u.hashed_password = StoredHash.bcrypt h

/-- **C1.** In a well-formed state, login succeeds iff a user with the
given email exists and the supplied password verifies against that
user's stored hash; in every other case it fails with 401 and the
identical detail `"Invalid credentials"` for both the missing-user and
wrong-password modes. -/
theorem login_iff_valid_credentials (db : DB) (hwf : WFdb db)
    (username : String) (password : List Nat) (now : Int) :
    ((∃ u ∈ db.users, u.email = username ∧
        verify_password password u.hashed_password = .ok true) ↔
      ∃ r, login db username password now = .ok r) ∧
    (∀ e, login db username password now = .error e →
      e = .http ⟨401, "Invalid credentials"⟩) := by
  constructor
  · constructor
    · rintro ⟨u, hu, hueq, hv⟩
      have hsome : (db.users.find? (fun x => x.email == username)).isSome := by
        rw [List.find?_isSome]
        exact ⟨u, hu, by simp [hueq]⟩
      obtain ⟨u', hfind⟩ := Option.isSome_iff_exists.mp hsome
      have hu'mem : u' ∈ db.users := List.mem_of_find?_eq_some hfind
      have hu'eq : u'.email = username := by
        have := List.find?_some hfind
        simpa using this
      have huu : u' = u :=
        List.inj_on_of_nodup_map hwf.1 hu'mem hu (by rw [hu'eq, hueq])
      subst huu
      refine ⟨⟨create_access_token [("sub", toString u'.id)] now, "bearer"⟩, ?_⟩
      unfold login findUserByEmail
      simp only [hfind, hv]
    · rintro ⟨r, hok⟩
      unfold login at hok
      cases hfind : findUserByEmail db username with
      | none => rw [hfind] at hok; exact absurd hok (by simp)
      | some user =>
        simp only [hfind] at hok
        have hmem : user ∈ db.users := List.mem_of_find?_eq_some hfind
        have hueq : user.email = username := by
          have := List.find?_some hfind
          simpa using this
        cases hv : verify_password password user.hashed_password with
        | error e => simp only [hv] at hok; exact absurd hok (by simp)
        | ok b =>
          cases b with
          | false => simp only [hv] at hok; exact absurd hok (by simp)
          | true => exact ⟨user, hmem, hueq, hv⟩
  · intro e herr
    unfold login at herr
    cases hfind : findUserByEmail db username with
    | none =>
      rw [hfind] at herr
      simpa using herr.symm
    | some user =>
      simp only [hfind] at herr
      have hmem : user ∈ db.users := List.mem_of_find?_eq_some hfind
      obtain ⟨hb, hbform⟩ := hwf.2 user hmem
      cases hv : verify_password password user.hashed_password with
      | error e' =>
        rw [hbform] at hv
        exact absurd hv (by simp [verify_password, cryptContextVerify])
      | ok b =>
        simp only [hv] at herr
        cases b with
        | false => simpa using herr.symm
        | true => exact absurd herr (by simp)

/-- Witness for C1: a one-user state (id 1, email `a@x.com`, the hash
of password "p" = code point 112); the right password logs in, and any
failure is the uniform 401. -/
theorem login_iff_valid_credentials_witness :
    ((∃ u ∈ (DB.mk [⟨1, "a@x.com", hash_password [112] 0, true⟩] []).users,
        u.email = "a@x.com" ∧
        verify_password [112] u.hashed_password = .ok true) ↔
      ∃ r, login (DB.mk [⟨1, "a@x.com", hash_password [112] 0, true⟩] [])
        "a@x.com" [112] 1000 = .ok r) ∧
    (∀ e, login (DB.mk [⟨1, "a@x.com", hash_password [112] 0, true⟩] [])
        "a@x.com" [112] 1000 = .error e →
      e = .http ⟨401, "Invalid credentials"⟩) :=
  login_iff_valid_credentials
    (DB.mk [⟨1, "a@x.com", hash_password [112] 0, true⟩] [])
    ⟨by decide, fun u hu => by
      simp only [List.mem_singleton] at hu
      exact ⟨bcryptHash (utf8Encode (_normalize_password [112])) 0, by
        rw [hu]; rfl⟩⟩
    "a@x.com" [112] 1000

/-- `add_friend` returns 404 and leaves the state unchanged whenever
either referenced user is missing, regardless of the friendship table's
contents. -/
theorem add_friend_missing_user (db : DB) (user_id : Int) (rq : FriendReq)
    (h : (findUserById db user_id).isNone ∨ (findUserById db rq.friend_id).isNone) :
    add_friend db user_id rq = (db, .error ⟨404, "User not found"⟩) := by
  unfold add_friend
  rcases h with h | h
  · simp [h]
  · simp [h, Bool.or_true]

/-- `add_friend` succeeds when both users exist and the ordered pair is
new, appending exactly the one row built from the request. -/
theorem add_friend_success (db : DB) (user_id : Int) (rq : FriendReq)
    (hu : (findUserById db user_id).isSome)
    (hf : (findUserById db rq.friend_id).isSome)
    (hnew : findFriendship db user_id rq.friend_id = none) :
    add_friend db user_id rq =
      ({ db with friends := db.friends ++ [⟨user_id, rq.friend_id, rq.name⟩] },
       .ok (user_id, rq.friend_id, rq.name)) := by
  obtain ⟨u, hu'⟩ := Option.isSome_iff_exists.mp hu
  obtain ⟨f, hf'⟩ := Option.isSome_iff_exists.mp hf
  unfold add_friend
  simp [hu', hf', hnew]

/-- After appending the row (a, b, name), the duplicate-pair lookup
finds it. -/
theorem findFriendship_append_self (db : DB) (a b : Int) (name : String)
    (hnew : findFriendship db a b = none) :
    findFriendship { db with friends := db.friends ++ [⟨a, b, name⟩] } a b =
      some ⟨a, b, name⟩ := by
  unfold findFriendship at *
  simp only [List.find?_append, hnew, Option.none_or]
  simp

/-- **C5.** For every state in which users A and B exist and no
friendship (A, B) exists, `add_friend` succeeds and creates exactly one
row; the immediately repeated identical request fails with the
conflict error 400 `"Friendship already exists"` and leaves the state
unchanged; and `add_friend` with either user missing fails with 404
`"User not found"`. -/
theorem add_friend_once_conflict_notfound :
    (∀ db A B name,
      (findUserById db A).isSome → (findUserById db B).isSome →
      findFriendship db A B = none →
      add_friend db A ⟨B, name⟩ =
        ({ db with friends := db.friends ++ [⟨A, B, name⟩] }, .ok (A, B, name)) ∧
      add_friend { db with friends := db.friends ++ [⟨A, B, name⟩] } A ⟨B, name⟩ =
        ({ db with friends := db.friends ++ [⟨A, B, name⟩] },
         .error ⟨400, "Friendship already exists"⟩)) ∧
    (∀ db uid rq,
      (findUserById db uid).isNone ∨ (findUserById db rq.friend_id).isNone →
      add_friend db uid rq = (db, .error ⟨404, "User not found"⟩)) := by
  constructor
  · intro db A B name hA hB hnew
    refine ⟨add_friend_success db A ⟨B, name⟩ hA hB hnew, ?_⟩
    obtain ⟨u, hu'⟩ := Option.isSome_iff_exists.mp hA
    obtain ⟨f, hf'⟩ := Option.isSome_iff_exists.mp hB
    have hdup := findFriendship_append_self db A B name hnew
    unfold add_friend
    have husers : findUserById { db with friends := db.friends ++ [⟨A, B, name⟩] } A =
        some u := hu'
    have hfriends : findUserById { db with friends := db.friends ++ [⟨A, B, name⟩] } B =
        some f := hf'
    simp [husers, hfriends, hdup]
  · exact fun db uid rq h => add_friend_missing_user db uid rq h

/-- Witness for C5: users 1 and 2 exist and are not yet friended; the
first add succeeds, the second conflicts, and a request naming the
missing user 3 is a 404. -/
theorem add_friend_once_conflict_notfound_witness :
    (add_friend
        ⟨[⟨1, "a@x.com", .bcrypt ⟨0, [112]⟩, true⟩,
          ⟨2, "b@x.com", .bcrypt ⟨0, [112]⟩, true⟩], []⟩ 1 ⟨2, "bestie"⟩ =
      (⟨[⟨1, "a@x.com", .bcrypt ⟨0, [112]⟩, true⟩,
         ⟨2, "b@x.com", .bcrypt ⟨0, [112]⟩, true⟩], [⟨1, 2, "bestie"⟩]⟩,
       .ok (1, 2, "bestie")) ∧
      add_friend
        ⟨[⟨1, "a@x.com", .bcrypt ⟨0, [112]⟩, true⟩,
          ⟨2, "b@x.com", .bcrypt ⟨0, [112]⟩, true⟩], [⟨1, 2, "bestie"⟩]⟩ 1 ⟨2, "bestie"⟩ =
      (⟨[⟨1, "a@x.com", .bcrypt ⟨0, [112]⟩, true⟩,
         ⟨2, "b@x.com", .bcrypt ⟨0, [112]⟩, true⟩], [⟨1, 2, "bestie"⟩]⟩,
       .error ⟨400, "Friendship already exists"⟩)) ∧
    add_friend
        ⟨[⟨1, "a@x.com", .bcrypt ⟨0, [112]⟩, true⟩,
          ⟨2, "b@x.com", .bcrypt ⟨0, [112]⟩, true⟩], []⟩ 1 ⟨3, "ghost"⟩ =
      (⟨[⟨1, "a@x.com", .bcrypt ⟨0, [112]⟩, true⟩,
         ⟨2, "b@x.com", .bcrypt ⟨0, [112]⟩, true⟩], []⟩,
       .error ⟨404, "User not found"⟩) :=
  ⟨add_friend_once_conflict_notfound.1
      ⟨[⟨1, "a@x.com", .bcrypt ⟨0, [112]⟩, true⟩,
        ⟨2, "b@x.com", .bcrypt ⟨0, [112]⟩, true⟩], []⟩ 1 2 "bestie"
      (by decide) (by decide) (by decide),
   add_friend_once_conflict_notfound.2
      ⟨[⟨1, "a@x.com", .bcrypt ⟨0, [112]⟩, true⟩,
        ⟨2, "b@x.com", .bcrypt ⟨0, [112]⟩, true⟩], []⟩ 1 ⟨3, "ghost"⟩
      (Or.inr (by decide))⟩

/-- **C7.** In `list_friends`, skip/limit range validation precedes the
user-existence check: out-of-range pagination yields 400 for every
state, including one where the user does not exist.  In `add_friend`,
the existence checks on both users precede the duplicate-pair check:
a missing user yields 404 for every state, including one where the
(user_id, friend_id) row is already present. -/
theorem validation_order_spec :
    (∀ db uid skip limit, (skip < 0 ∨ limit < 1 ∨ limit > 100) →
      ∃ msg, list_friends db uid skip limit = .error ⟨400, msg⟩) ∧
    (∀ db uid rq,
      (findUserById db uid).isNone ∨ (findUserById db rq.friend_id).isNone →
      add_friend db uid rq = (db, .error ⟨404, "User not found"⟩)) := by
  constructor
  · intro db uid skip limit h
    rcases h with h | h | h
    · exact ⟨"skip must be non-negative", by simp [list_friends, h]⟩
    · by_cases h1 : skip < 0
      · exact ⟨"skip must be non-negative", by simp [list_friends, h1]⟩
      · exact ⟨"limit must be at least 1", by simp [list_friends, h1, h]⟩
    · by_cases h1 : skip < 0
      · exact ⟨"skip must be non-negative", by simp [list_friends, h1]⟩
      · by_cases h2 : limit < 1
        · exact ⟨"limit must be at least 1", by simp [list_friends, h1, h2]⟩
        · exact ⟨"limit cannot exceed 100", by simp [list_friends, h1, h2, h]⟩
  · exact fun db uid rq h => add_friend_missing_user db uid rq h

/-- Witness for C7: with an empty database (so user 7 does not exist),
`skip = -1` yields a 400, not a 404; and with the row (7, 8) already in
the friends table but neither user present, `add_friend` yields the
404, not the duplicate conflict. -/
theorem validation_order_spec_witness :
    (∃ msg, list_friends ⟨[], []⟩ 7 (-1) 10 = .error ⟨400, msg⟩) ∧
    add_friend ⟨[], [⟨7, 8, "x"⟩]⟩ 7 ⟨8, "x"⟩ =
      (⟨[], [⟨7, 8, "x"⟩]⟩, .error ⟨404, "User not found"⟩) :=
  ⟨validation_order_spec.1 ⟨[], []⟩ 7 (-1) 10 (Or.inl (by decide)),
   validation_order_spec.2 ⟨[], [⟨7, 8, "x"⟩]⟩ 7 ⟨8, "x"⟩ (Or.inl (by decide))⟩

/-- **C8.** When some registered user already holds the requested email
or the requested id, a second registration always fails with the 400
conflict, whatever the other fields, and the state is unchanged. -/
theorem duplicate_registration_conflict (db : DB) (u0 : User)
    (hmem : u0 ∈ db.users) (u : UserCreate) (salt : Nat)
    (hdup : u.email = u0.email ∨ u.userId = u0.id) :
    ∃ msg, create_user db u salt = (db, .error ⟨400, msg⟩) := by
  unfold create_user
  by_cases hem : (findUserByEmail db u.email).isSome
  · exact ⟨"User already exists", by simp [hem]⟩
  · have hid : (findUserById db u.userId).isSome := by
      rcases hdup with h | h
      · exfalso
        apply hem
        unfold findUserByEmail
        rw [List.find?_isSome]
        exact ⟨u0, hmem, by simp [h]⟩
      · unfold findUserById
        rw [List.find?_isSome]
        exact ⟨u0, hmem, by simp [h]⟩
    exact ⟨"User ID already exists", by simp [hem, hid]⟩

/-- Witness for C8: with user 1 / `a@x.com` registered, registering the
same email under a fresh id, and the same id under a fresh email, both
yield a 400 with the state unchanged. -/
theorem duplicate_registration_conflict_witness :
    (∃ msg, create_user ⟨[⟨1, "a@x.com", .bcrypt ⟨0, [112]⟩, true⟩], []⟩
        ⟨2, "a@x.com", [113]⟩ 5 =
      (⟨[⟨1, "a@x.com", .bcrypt ⟨0, [112]⟩, true⟩], []⟩, .error ⟨400, msg⟩)) ∧
    (∃ msg, create_user ⟨[⟨1, "a@x.com", .bcrypt ⟨0, [112]⟩, true⟩], []⟩
        ⟨1, "b@x.com", [113]⟩ 5 =
      (⟨[⟨1, "a@x.com", .bcrypt ⟨0, [112]⟩, true⟩], []⟩, .error ⟨400, msg⟩)) :=
  ⟨duplicate_registration_conflict ⟨[⟨1, "a@x.com", .bcrypt ⟨0, [112]⟩, true⟩], []⟩
      ⟨1, "a@x.com", .bcrypt ⟨0, [112]⟩, true⟩ (by simp)
      ⟨2, "a@x.com", [113]⟩ 5 (Or.inl rfl),
   duplicate_registration_conflict ⟨[⟨1, "a@x.com", .bcrypt ⟨0, [112]⟩, true⟩], []⟩
      ⟨1, "a@x.com", .bcrypt ⟨0, [112]⟩, true⟩ (by simp)
      ⟨1, "b@x.com", [113]⟩ 5 (Or.inr rfl)⟩

/-- **C10.** Self-friendship is permitted: for an existing user A with
no (A, A) row present, `add_friend` with path user_id = A and body
friend_id = A succeeds and creates the directed friendship A→A — both
existence lookups resolve to the same user and no check forbids
user_id = friend_id. -/
theorem self_friendship_allowed (db : DB) (A : Int) (name : String)
    (hA : (findUserById db A).isSome)
    (hnew : findFriendship db A A = none) :
    add_friend db A ⟨A, name⟩ =
      ({ db with friends := db.friends ++ [⟨A, A, name⟩] }, .ok (A, A, name)) :=
  add_friend_success db A ⟨A, name⟩ hA hA hnew

/-- Witness for C10: user 1 befriends themself. -/
theorem self_friendship_allowed_witness :
    add_friend ⟨[⟨1, "a@x.com", .bcrypt ⟨0, [112]⟩, true⟩], []⟩ 1 ⟨1, "me"⟩ =
      (⟨[⟨1, "a@x.com", .bcrypt ⟨0, [112]⟩, true⟩], [⟨1, 1, "me"⟩]⟩,
       .ok (1, 1, "me")) :=
  self_friendship_allowed ⟨[⟨1, "a@x.com", .bcrypt ⟨0, [112]⟩, true⟩], []⟩ 1 "me"
    (by decide) (by decide)

/-- A sample state for the pagination scenario of the spec: user 1
exists (with five more users) and holds exactly five friendships, in
insertion order towards users 2..6. -/
def sampleDb5 : DB :=
  ⟨[⟨1, "u1@x.com", .bcrypt ⟨0, [112]⟩, true⟩,
    ⟨2, "u2@x.com", .bcrypt ⟨0, [112]⟩, true⟩,
    ⟨3, "u3@x.com", .bcrypt ⟨0, [112]⟩, true⟩,
    ⟨4, "u4@x.com", .bcrypt ⟨0, [112]⟩, true⟩,
    ⟨5, "u5@x.com", .bcrypt ⟨0, [112]⟩, true⟩,
    ⟨6, "u6@x.com", .bcrypt ⟨0, [112]⟩, true⟩],
   [⟨1, 2, "f2"⟩, ⟨1, 3, "f3"⟩, ⟨1, 4, "f4"⟩, ⟨1, 5, "f5"⟩, ⟨1, 6, "f6"⟩]⟩

/-- **C6.** For every existing user and valid `skip ≥ 0`,
`1 ≤ limit ≤ 100`, `list_friends` returns the page of that user's
friendships in insertion order, with `min(limit, n - skip)` items
(`Nat` subtraction supplying the clamp at 0), `total = n`, echoing
`skip` and `limit`; concretely on five friendships, `skip=0&limit=2`
gives 2 items with `total = 5`, `skip=4&limit=2` gives 1 item, and
`limit=0`, `limit=101`, `skip=-1` each give 400. -/
theorem list_friends_pagination_spec :
    (∀ db uid skip limit,
      (findUserById db uid).isSome → 0 ≤ skip → 1 ≤ limit → limit ≤ 100 →
      list_friends db uid skip limit =
        .ok ⟨(((db.friends.filter (fun f => f.user_id == uid)).drop
                skip.toNat).take limit.toNat).map
              (fun f => ⟨f.friend_id, f.name⟩),
            (db.friends.filter (fun f => f.user_id == uid)).length,
            skip, limit⟩ ∧
      ∀ resp, list_friends db uid skip limit = .ok resp →
        resp.items.length =
          min limit.toNat
            ((db.friends.filter (fun f => f.user_id == uid)).length -
              skip.toNat)) ∧
    list_friends sampleDb5 1 0 2 = .ok ⟨[⟨2, "f2"⟩, ⟨3, "f3"⟩], 5, 0, 2⟩ ∧
    list_friends sampleDb5 1 4 2 = .ok ⟨[⟨6, "f6"⟩], 5, 4, 2⟩ ∧
    list_friends sampleDb5 1 0 0 = .error ⟨400, "limit must be at least 1"⟩ ∧
    list_friends sampleDb5 1 0 101 = .error ⟨400, "limit cannot exceed 100"⟩ ∧
    list_friends sampleDb5 1 (-1) 2 = .error ⟨400, "skip must be non-negative"⟩ := by
  refine ⟨?_, rfl, rfl, rfl, rfl, rfl⟩
  intro db uid skip limit hu h0 h1 h2
  obtain ⟨u, hu'⟩ := Option.isSome_iff_exists.mp hu
  have hn0 : ¬ skip < 0 := by omega
  have hn1 : ¬ limit < 1 := by omega
  have hn2 : ¬ limit > 100 := by omega
  have heq : list_friends db uid skip limit =
      .ok ⟨(((db.friends.filter (fun f => f.user_id == uid)).drop
              skip.toNat).take limit.toNat).map
            (fun f => ⟨f.friend_id, f.name⟩),
          (db.friends.filter (fun f => f.user_id == uid)).length,
          skip, limit⟩ := by
    unfold list_friends
    simp [hn0, hn1, hn2, hu']
  refine ⟨heq, ?_⟩
  intro resp hresp
  rw [heq] at hresp
  injection hresp with hresp
  subst hresp
  simp [List.length_take, List.length_drop]

/-- Witness for C6's general clause: `sampleDb5` at `skip=1`,
`limit=3` (a page of min 3 (5 - 1) = 3 items). -/
theorem list_friends_pagination_spec_witness :
    list_friends sampleDb5 1 1 3 =
      .ok ⟨(((sampleDb5.friends.filter (fun f => f.user_id == 1)).drop
              (1 : Int).toNat).take (3 : Int).toNat).map
            (fun f => ⟨f.friend_id, f.name⟩),
          (sampleDb5.friends.filter (fun f => f.user_id == 1)).length,
          1, 3⟩ ∧
    ∀ resp, list_friends sampleDb5 1 1 3 = .ok resp →
      resp.items.length =
        min (3 : Int).toNat
          ((sampleDb5.friends.filter (fun f => f.user_id == 1)).length -
            (1 : Int).toNat) :=
  list_friends_pagination_spec.1 sampleDb5 1 1 3
    (by decide) (by decide) (by decide) (by decide)

/-- The two-user state used for the name-length claim: users 1 and 2,
no friendships. -/
def twoUserDb : DB :=
  ⟨[⟨1, "a@x.com", .bcrypt ⟨0, [112]⟩, true⟩,
    ⟨2, "b@x.com", .bcrypt ⟨0, [112]⟩, true⟩], []⟩

/-- A 51-character friendship name. -/
def longName : String := String.mk (List.replicate 51 'a')

/-- **C9 (counterexample).** The claim "a name longer than 50
characters is rejected (no Friendship row with a name over 50
characters is ever stored)" fails: the request schema puts no bound on
`name`, the handler performs no length check, and SQLite does not
enforce the advisory `String(50)` column length, so a 51-character
name is accepted and the row is stored. -/
theorem friend_name_over_50_accepted_cex :
    (add_friend twoUserDb 1 ⟨2, longName⟩).2 = .ok (1, 2, longName) ∧
    (add_friend twoUserDb 1 ⟨2, longName⟩).1.friends = [⟨1, 2, longName⟩] ∧
    50 < longName.length :=
  ⟨rfl, rfl, by decide⟩

/-- **C9 (amended).** The friendship name is required by the request
schema and is stored verbatim, with no length validation anywhere:
whenever both users exist and the pair is new, `add_friend` succeeds
and stores the caller's name unchanged, for names of any length —
including lengths above the advisory 50-character column size. -/
theorem friend_name_unvalidated_stored_verbatim :
    (∀ db uid rq,
      (findUserById db uid).isSome → (findUserById db rq.friend_id).isSome →
      findFriendship db uid rq.friend_id = none →
      add_friend db uid rq =
        ({ db with friends := db.friends ++ [⟨uid, rq.friend_id, rq.name⟩] },
         .ok (uid, rq.friend_id, rq.name))) ∧
    ((add_friend twoUserDb 1 ⟨2, longName⟩).1.friends = [⟨1, 2, longName⟩] ∧
      50 < longName.length) :=
  ⟨fun db uid rq hu hf hnew => add_friend_success db uid rq hu hf hnew,
   rfl, by decide⟩

/-- Witness for C9 (amended): the 51-character name is stored verbatim
for users 1 and 2. -/
theorem friend_name_unvalidated_stored_verbatim_witness :
    add_friend twoUserDb 1 ⟨2, longName⟩ =
      ({ twoUserDb with friends := twoUserDb.friends ++ [⟨1, 2, longName⟩] },
       .ok (1, 2, longName)) :=
  friend_name_unvalidated_stored_verbatim.1 twoUserDb 1 ⟨2, longName⟩
    (by decide) (by decide) (by decide)

end UserMgmt
